import Mathlib

/-!
# Verification of the homeassistant-domru gateway core

Shallow embedding of the Go sources of `090809/homeassistant-domru`:

* `internal/homeassistant/mqtt.go` — the MQTT device bridge
  (`commandHandler`, `publishDoorLock`, `Stop`, the will registered in
  `Start`);
* `pkg/tokenmanagement/main.go` — the `ValidTokenProvider`
  (`GetOperatorID`, `GetToken`, `RefreshToken`);
* `internal/homeassistant/main.go` — `GetHomeAssistantNetworkAddress`.

Effectful Go code is modelled as pure functions producing an explicit
trace of events (publishes, upstream calls, log lines, store writes);
collaborator outcomes (upstream failures, store failures) are arguments.
-/

namespace DomruBridge

/-! ## A model of `fmt.Sscanf(topic, "domru/domru-door_%d_%d-open/command", ...)`

Go's `fmt` scanning rules (per the `fmt` package documentation and the
`scan.go` implementation, with `Sscanf`'s `nlIsSpace = false`):

* a literal (non-space, non-verb) character in the format must match the
  next input character exactly;
* every verb except `%c` first discards leading white space from the
  input.  White space is `fmt`'s `isSpace` table; an (unmatched) newline
  is an error rather than skipped space, and a `'\r'` directly followed
  by `'\n'` is treated as that newline (error);
* `%d` then accepts an optional sign and one or more decimal digits, and
  fails if the value does not fit a 64-bit `int`;
* input remaining after the last format directive is not an error for
  `Sscanf`.
-/

/-- `fmt`'s `isSpace` table (the ranges of `space` in `fmt/scan.go`),
restricted to the code points reachable below 0x3001. -/
def goIsSpace (c : Char) : Bool :=
  let n := c.toNat
  (9 ≤ n && n ≤ 13) || n == 32 || n == 0x85 || n == 0xa0 || n == 0x1680 ||
  (0x2000 ≤ n && n ≤ 0x200a) || n == 0x2028 || n == 0x2029 ||
  n == 0x202f || n == 0x205f || n == 0x3000

/-- `ss.SkipSpace` with `nlIsSpace = false`: skip white space; an
unmatched newline (also as `"\r\n"`) is a scan error (`none`). -/
def skipSpaces : List Char → Option (List Char)
  | [] => some []
  | c :: rest =>
    if c.toNat = 13 then
      match rest with
      | d :: _ => if d.toNat = 10 then none else skipSpaces rest
      | [] => skipSpaces rest
    else if c.toNat = 10 then none
    else if goIsSpace c then skipSpaces rest
    else some (c :: rest)

/-- Greedy decimal-digit scan, accumulating the value. -/
def digitsToNat (acc : Nat) : List Char → Nat × List Char
  | [] => (acc, [])
  | c :: rest =>
    if c.isDigit then digitsToNat (acc * 10 + (c.toNat - 48)) rest
    else (acc, c :: rest)

/-- The `%d` verb scanning into a Go `int` (64-bit): skip space, optional
sign, at least one decimal digit, 64-bit range check. -/
def scanInt (cs : List Char) : Option (Int × List Char) :=
  match skipSpaces cs with
  | none => none
  | some cs1 =>
    let signed : Bool × List Char :=
      match cs1 with
      | '-' :: r => (true, r)
      | '+' :: r => (false, r)
      | _ => (false, cs1)
    match signed.2 with
    | [] => none
    | c :: _ =>
      if c.isDigit then
        let scanned := digitsToNat 0 signed.2
        let v : Int := if signed.1 then -(scanned.1 : Int) else (scanned.1 : Int)
        if -(9223372036854775808 : Int) ≤ v ∧ v ≤ 9223372036854775807 then
          some (v, scanned.2)
        else none
      else none

/-- Match a literal run of format characters against the input. -/
def matchLit : List Char → List Char → Option (List Char)
  | [], cs => some cs
  | _ :: _, [] => none
  | l :: ls, c :: cs => if c = l then matchLit ls cs else none

/-- `fmt.Sscanf(topic, "domru/domru-door_%d_%d-open/command", &acID, &placeID)`:
`some (acID, placeID)` exactly when the scan succeeds (trailing input
after the format is allowed by `Sscanf`). -/
def sscanfDoorCommandTopic (topic : String) : Option (Int × Int) :=
  match matchLit "domru/domru-door_".data topic.data with
  | none => none
  | some cs1 =>
    match scanInt cs1 with
    | none => none
    | some (acID, cs2) =>
      match matchLit "_".data cs2 with
      | none => none
      | some cs3 =>
        match scanInt cs3 with
        | none => none
        | some (placeID, cs4) =>
          match matchLit "-open/command".data cs4 with
          | none => none
          | some _ => some (acID, placeID)

/-! ## The MQTT bridge as a trace-producing function -/

/-- Observable actions of the MQTT bridge (`internal/homeassistant/mqtt.go`).
`publish` records topic, QoS, the retained flag, the payload and the
delay in seconds after the handler ran (0 = immediate, 5 = the
`time.AfterFunc(5*time.Second, ...)` relock timer). -/
inductive HAEvent where
  | log (level msg : String)
  | openDoor (placeID acID : Int)
  | publish (topic : String) (qos : Nat) (retained : Bool) (payload : String) (delaySeconds : Nat)
  | disconnect (graceMs : Nat)
  deriving DecidableEq, Repr

def isOpenDoorEvent : HAEvent → Bool
  | .openDoor _ _ => true
  | _ => false

def isPublishEvent : HAEvent → Bool
  | .publish _ _ _ _ _ => true
  | _ => false

/-- Number of upstream door-open calls in a trace. -/
def upstreamCalls (t : List HAEvent) : Nat := (t.filter isOpenDoorEvent).length

/-- Number of state/topic publishes in a trace. -/
def statePublishes (t : List HAEvent) : Nat := (t.filter isPublishEvent).length

/-- `MqttIntegration.commandHandler`.  `openDoorErr` is the outcome the
upstream `domruAPI.OpenDoor(placeID, acID)` call would return for this
invocation (`none` = success); `topic`/`payload` come from the inbound
MQTT message. -/
def commandHandler (openDoorErr : Option String) (topic payload : String) :
    List HAEvent :=
  HAEvent.log "info" "Received command" ::
  match sscanfDoorCommandTopic topic with
  | none => [HAEvent.log "error" "Failed to parse access control ID from topic"]
  | some (acID, placeID) =>
    let stateTopic :=
      "domru/domru-door_" ++ toString acID ++ "_" ++ toString placeID ++ "-open/state"
    match payload with
    | "UNLOCK" =>
      HAEvent.log "info" "Opening door" ::
      HAEvent.openDoor placeID acID ::
      (match openDoorErr with
       | some _ => [HAEvent.log "error" "Failed to open door"]
       | none =>
         [HAEvent.publish stateTopic 1 true "UNLOCKED" 0,
          HAEvent.publish stateTopic 1 true "LOCKED" 5])
    | "LOCK" => [HAEvent.publish stateTopic 1 true "LOCKED" 0]
    | _ => [HAEvent.log "warn" "Received unknown command"]

/-- `MqttIntegration.Stop`: disconnect with a 250 ms grace period when the
client exists and is connected; nothing else. -/
def Stop (connected : Bool) : List HAEvent :=
  if connected then [HAEvent.disconnect 250] else []

/-- The last-will registered by `Start` via
`opts.SetWill("domru_proxy/status", "offline", 1, true)`:
(topic, payload, qos, retained). -/
def startWill : String × String × Nat × Bool := ("domru_proxy/status", "offline", 1, true)

/-! ## Discovery (`publishDoorLock`) -/

/-- The fields of `models.AccessControl` used by the bridge.
Modelled from the spec: `internal/domru/models` is not part of the
sources at hand; the spec's Device is
`{accessControlID: integer, placeID: integer, displayName: string}`, so
an access-control entry carries its id (`ac.ID`) and display name
(`ac.Name`). -/
structure AccessControl where
  ID : Int
  Name : String
  deriving DecidableEq, Repr

/-- Modelled from the spec: `constants.GetSnapshotUrl(haHost, placeID, ac.ID)`
(the constants package is not in the sources at hand) — a snapshot URL
served via the gateway at `haHost`, keyed by the pair. -/
def GetSnapshotUrl (haHost : String) (placeID acID : Int) : String :=
  haHost ++ "snapshot/" ++ toString placeID ++ "/" ++ toString acID

def hexDigitChar (n : Nat) : Char := "0123456789abcdef".data.getD n '0'

/-- `encoding/json`'s string escaping (HTML escaping on, the default for
`json.Marshal`). -/
def jsonEscapeChar (c : Char) : String :=
  if c = '"' then "\\\""
  else if c = '\\' then "\\\\"
  else if c = '\n' then "\\n"
  else if c = '\r' then "\\r"
  else if c = '\t' then "\\t"
  else if c.toNat < 32 then
    "\\u00" ++ String.singleton (hexDigitChar (c.toNat / 16)) ++
      String.singleton (hexDigitChar (c.toNat % 16))
  else if c = '<' then "\\u003c"
  else if c = '>' then "\\u003e"
  else if c = '&' then "\\u0026"
  else if c.toNat = 0x2028 then "\\u2028"
  else if c.toNat = 0x2029 then "\\u2029"
  else String.singleton c

def jsonStr (s : String) : String :=
  "\"" ++ String.join (s.data.map jsonEscapeChar) ++ "\""

/-- The `MqttDevice` struct of `mqtt.go`. -/
structure MqttDevice where
  identifiers : List String
  name : String
  model : String
  manufacturer : String
  deriving DecidableEq, Repr

/-- The `MqttLock` discovery-payload struct of `mqtt.go`, fields in Go
declaration order (which fixes `json.Marshal`'s output order). -/
structure MqttLock where
  name : String
  uniqueID : String
  commandTopic : String
  stateTopic : String
  payloadUnlock : String
  payloadLock : String
  stateUnlocked : String
  stateLocked : String
  optimistic : Bool
  device : MqttDevice
  icon : String
  entityPicture : String
  availabilityTopic : String
  deriving DecidableEq, Repr

def mqttDeviceJSON (d : MqttDevice) : String :=
  "\x7b\"identifiers\":[" ++ String.intercalate "," (d.identifiers.map jsonStr) ++
  "],\"name\":" ++ jsonStr d.name ++
  ",\"model\":" ++ jsonStr d.model ++
  ",\"manufacturer\":" ++ jsonStr d.manufacturer ++ "\x7d"

/-- `json.Marshal` of `MqttLock`: fields in declaration order; `icon` and
`entity_picture` carry `omitempty`. -/
def mqttLockJSON (p : MqttLock) : String :=
  "\x7b\"name\":" ++ jsonStr p.name ++
  ",\"unique_id\":" ++ jsonStr p.uniqueID ++
  ",\"command_topic\":" ++ jsonStr p.commandTopic ++
  ",\"state_topic\":" ++ jsonStr p.stateTopic ++
  ",\"payload_unlock\":" ++ jsonStr p.payloadUnlock ++
  ",\"payload_lock\":" ++ jsonStr p.payloadLock ++
  ",\"state_unlocked\":" ++ jsonStr p.stateUnlocked ++
  ",\"state_locked\":" ++ jsonStr p.stateLocked ++
  ",\"optimistic\":" ++ (if p.optimistic then "true" else "false") ++
  ",\"device\":" ++ mqttDeviceJSON p.device ++
  (if p.icon = "" then "" else ",\"icon\":" ++ jsonStr p.icon) ++
  (if p.entityPicture = "" then "" else ",\"entity_picture\":" ++ jsonStr p.entityPicture) ++
  ",\"availability_topic\":" ++ jsonStr p.availabilityTopic ++ "\x7d"

/-- `MqttIntegration.publishDoorLock`, with the side effects abstracted to
its emitted data: the discovery topic, the marshalled discovery payload,
the entity id, and the initial-state publish (topic, payload). -/
def publishDoorLockMsg (ac : AccessControl) (placeID : Int) (haHost : String) :
    String × String × String × (String × String) :=
  let deviceID := "domru-door_" ++ toString ac.ID ++ "_" ++ toString placeID
  let entityID := deviceID ++ "-open"
  let discoveryTopic := "homeassistant/lock/" ++ entityID ++ "/config"
  let commandTopic := "domru/" ++ entityID ++ "/command"
  let stateTopic := "domru/" ++ entityID ++ "/state"
  let payload : MqttLock :=
    { name := "Open " ++ ac.Name
      uniqueID := entityID
      commandTopic := commandTopic
      stateTopic := stateTopic
      payloadUnlock := "UNLOCK"
      payloadLock := "LOCK"
      stateUnlocked := "UNLOCKED"
      stateLocked := "LOCKED"
      optimistic := true
      device := ⟨[deviceID], ac.Name, "Doorphone", "Dom.ru"⟩
      icon := "mdi:door"
      entityPicture := if haHost ≠ "" then GetSnapshotUrl haHost placeID ac.ID else ""
      availabilityTopic := "domru_proxy/status" }
  (discoveryTopic, mqttLockJSON payload, entityID, (stateTopic, "LOCKED"))

/-! ## Token management (`pkg/tokenmanagement/main.go`) -/

/-- `auth.Credentials`. -/
structure Credentials where
  accessToken : String
  refreshToken : String
  operatorID : Int
  deriving DecidableEq, Repr

/-- Modelled from the spec: `models.AuthenticationResponse`, the "JSON
authentication envelope convertible into `Credentials`" returned by the
upstream session-refresh endpoint (its Go definition is not in the
sources at hand). -/
structure AuthenticationResponse where
  accessToken : String
  refreshToken : String
  operatorID : Int
  deriving DecidableEq, Repr

/-- Modelled from the spec: `auth.NewCredentialsFromAuthResponse` — the
response envelope converted into a fresh `Credentials` value. -/
def NewCredentialsFromAuthResponse (r : AuthenticationResponse) : Credentials :=
  { accessToken := r.accessToken
    refreshToken := r.refreshToken
    operatorID := r.operatorID }

/-- Modelled from the spec: the formatted
`fmt.Sprintf(constants.API_REFRESH_SESSION, constants.BaseUrl)` URL of
the upstream session-refresh endpoint (the constants package is not in
the sources at hand); its exact text does not matter to the claims. -/
def API_REFRESH_SESSION_URL : String := "BaseUrl/auth/v2/session/refresh"

/-- Observable actions of `ValidTokenProvider.RefreshToken`: the single
upstream HTTP request (method, URL, headers) and the store write. -/
inductive TMEvent where
  | request (method url : String) (headers : List (String × String))
  | save (c : Credentials)
  deriving DecidableEq, Repr

def isRequestEvent : TMEvent → Bool
  | .request _ _ _ => true
  | _ => false

def isSaveEvent : TMEvent → Bool
  | .save _ => true
  | _ => false

def requestCount (t : List TMEvent) : Nat := (t.filter isRequestEvent).length

def saveCount (t : List TMEvent) : Nat := (t.filter isSaveEvent).length

/-- Result of a `RefreshToken` call: the returned error (if any), the
trace of observable actions, and the store content afterwards.  The
store is modelled as what `LoadCredentials` currently returns
(`Except.error` = load failure); a successful `SaveCredentials` replaces
it wholesale, a failed save leaves it unchanged (store writes are atomic
per the spec). -/
structure RefreshOutcome where
  result : Except String Unit
  trace : List TMEvent
  store : Except String Credentials
  deriving Repr

/-- `ValidTokenProvider.RefreshToken`.  `store` is the credentials store
at call time; `sendErr` is the failure (if any) of the upstream refresh
request; `resp` the parsed response when it succeeds; `saveErr` the
failure (if any) of `SaveCredentials`. -/
def RefreshToken (store : Except String Credentials) (sendErr : Option String)
    (resp : AuthenticationResponse) (saveErr : Option String) : RefreshOutcome :=
  match store with
  | .error e => ⟨.error ("load credentials: " ++ e), [], store⟩
  | .ok credentials =>
    let req : TMEvent := .request "GET" API_REFRESH_SESSION_URL
      [("Bearer", credentials.refreshToken), ("Operator", toString credentials.operatorID)]
    match sendErr with
    | some e => ⟨.error ("send request to refresh token: " ++ e), [req], store⟩
    | none =>
      let newCreds := NewCredentialsFromAuthResponse resp
      match saveErr with
      | some e => ⟨.error ("save credentials: " ++ e), [req, .save newCreds], store⟩
      | none => ⟨.ok (), [req, .save newCreds], .ok newCreds⟩

/-- `ValidTokenProvider.GetOperatorID`: a fresh load, then the loaded
record's operator id. -/
def GetOperatorID (store : Except String Credentials) : Except String Int :=
  match store with
  | .error e => .error ("load credentials: " ++ e)
  | .ok credentials => .ok credentials.operatorID

/-- `ValidTokenProvider.GetToken`: a fresh load, then the loaded record's
access token. -/
def GetToken (store : Except String Credentials) : Except String String :=
  match store with
  | .error e => .error ("load credentials: " ++ e)
  | .ok credentials => .ok credentials.accessToken

/-! ## `GetHomeAssistantNetworkAddress` (`internal/homeassistant/main.go`) -/

structure Ipv4Config where
  address : List String
  deriving DecidableEq, Repr

structure NetInterface where
  ipv4 : Ipv4Config
  deriving DecidableEq, Repr

/-- The `HAConfig` struct unmarshalled from the supervisor response. -/
structure HAConfig where
  result : String
  interfaces : List NetInterface
  deriving DecidableEq, Repr

/-- Outcome of a Go code path: a returned value, a returned error, or a
runtime panic. -/
inductive GoOutcome (α : Type) where
  | ok (a : α)
  | err (msg : String)
  | panic (msg : String)
  deriving Repr

/-- The post-unmarshal tail of `GetHomeAssistantNetworkAddress`: the guard
`haconfig.Result == "ok" && len(haconfig.Data.Interfaces) > 0`, then the
unguarded `haconfig.Data.Interfaces[0].Ipv4.Address[0]` (a panic when
the address list is empty) split on `"/"`. -/
def extractNetworkAddress (cfg : HAConfig) : GoOutcome String :=
  match cfg.interfaces with
  | i :: _ =>
    if cfg.result = "ok" then
      match i.ipv4.address with
      | [] => .panic "runtime error: index out of range [0] with length 0"
      | a :: _ => .ok ((a.splitOn "/").headD "")
    else .err "supervisor ip not found"
  | [] => .err "supervisor ip not found"

/-! ## The spec's exact command-topic pattern -/

/-- The claim's exact pattern `domru/domru-door_<int>_<int>-open/command`,
written from the spec's words (not from the source) for comparison with
the Sscanf-based parse: literal prefix, a run of decimal digits, `_`, a
run of decimal digits, literal suffix, nothing else. -/
def specExactCommandTopic (topic : String) : Bool :=
  match matchLit "domru/domru-door_".data topic.data with
  | none => false
  | some cs1 =>
    match digitsToNat 0 cs1 with
    | (_, cs2) =>
      if cs1.length = cs2.length then false
      else
        match matchLit "_".data cs2 with
        | none => false
        | some cs3 =>
          match digitsToNat 0 cs3 with
          | (_, cs4) =>
            if cs3.length = cs4.length then false
            else
              match matchLit "-open/command".data cs4 with
              | none => false
              | some rest => rest.isEmpty

/-- Whether a topic is deliverable through the bridge's command
subscription filter `domru/+/command`: one non-empty middle level with no
`/` in it. -/
def matchesCommandFilter (topic : String) : Bool :=
  match matchLit "domru/".data topic.data with
  | none => false
  | some rest =>
    let suffix := "/command".data
    if rest.length < suffix.length then false
    else
      let level := rest.take (rest.length - suffix.length)
      decide (rest.drop (rest.length - suffix.length) = suffix) &&
        level.all (fun c => c ≠ '/')

/-! ## Theorems -/

/-- C1: an MQTT message with payload `UNLOCK` on topic
`domru/domru-door_7_3-open/command` makes the handler call the upstream
open-door action with `placeID = 3` and `accessControlID = 7`, and on
success publish `UNLOCKED` on the corresponding state topic immediately
and `LOCKED` on the same topic after the fixed 5-second relock delay, in
that order with no state publish in between (the trace is exactly these
events). -/
theorem unlock_command_full_scenario :
    commandHandler none "domru/domru-door_7_3-open/command" "UNLOCK" =
      [HAEvent.log "info" "Received command",
       HAEvent.log "info" "Opening door",
       HAEvent.openDoor 3 7,
       HAEvent.publish "domru/domru-door_7_3-open/state" 1 true "UNLOCKED" 0,
       HAEvent.publish "domru/domru-door_7_3-open/state" 1 true "LOCKED" 5] := by
  decide

/-- C2: with any credentials record loadable from the store, a successful
`RefreshToken` call issues exactly one HTTP GET to the session-refresh
endpoint carrying the stored refresh token in a `Bearer` header and the
stored operator id in an `Operator` header, and saves the `Credentials`
built from the parsed response to the store as a full overwrite of the
prior record. -/
theorem refresh_success_overwrites_store (creds : Credentials)
    (resp : AuthenticationResponse) :
    RefreshToken (Except.ok creds) none resp none =
      ⟨Except.ok (),
       [TMEvent.request "GET" API_REFRESH_SESSION_URL
          [("Bearer", creds.refreshToken), ("Operator", toString creds.operatorID)],
        TMEvent.save (NewCredentialsFromAuthResponse resp)],
       Except.ok (NewCredentialsFromAuthResponse resp)⟩ := rfl

/-- C3: every `RefreshToken` call performs at most one upstream request
and at most one store write; when loading fails it returns the load
error with no request, no write and an unchanged store; when the
upstream refresh request fails it performs no write, leaves the store
unchanged, and returns the send error. -/
theorem refresh_single_shot (store : Except String Credentials)
    (sendErr : Option String) (resp : AuthenticationResponse)
    (saveErr : Option String) :
    requestCount (RefreshToken store sendErr resp saveErr).trace ≤ 1 ∧
    saveCount (RefreshToken store sendErr resp saveErr).trace ≤ 1 ∧
    (∀ e, store = Except.error e →
      (RefreshToken store sendErr resp saveErr).result =
        Except.error ("load credentials: " ++ e) ∧
      (RefreshToken store sendErr resp saveErr).trace = [] ∧
      (RefreshToken store sendErr resp saveErr).store = store) ∧
    (∀ e, sendErr = some e →
      saveCount (RefreshToken store sendErr resp saveErr).trace = 0 ∧
      (RefreshToken store sendErr resp saveErr).store = store) ∧
    (∀ creds e, store = Except.ok creds → sendErr = some e →
      (RefreshToken store sendErr resp saveErr).result =
        Except.error ("send request to refresh token: " ++ e)) := by
  rcases store with e | creds <;> rcases sendErr with _ | e2 <;>
    rcases saveErr with _ | e3 <;>
      simp [RefreshToken, requestCount, saveCount, isRequestEvent, isSaveEvent]

/-- Witness for C3: at a store whose load fails with `"disk"`, the call
returns the load error, makes no request or write, and leaves the store
unchanged; at a loaded record whose refresh request fails with `"net"`,
the call returns the send error. -/
theorem refresh_single_shot_witness :
    (Except.error "disk" : Except String Credentials) = Except.error "disk" ∧
    ((RefreshToken (Except.error "disk") none ⟨"a", "r", 1⟩ none).result =
        Except.error ("load credentials: " ++ "disk") ∧
      (RefreshToken (Except.error "disk") none ⟨"a", "r", 1⟩ none).trace = [] ∧
      (RefreshToken (Except.error "disk") none ⟨"a", "r", 1⟩ none).store =
        Except.error "disk") ∧
    (Except.ok (⟨"a", "r", 1⟩ : Credentials) : Except String Credentials) =
      Except.ok ⟨"a", "r", 1⟩ ∧
    (some "net" : Option String) = some "net" ∧
    (RefreshToken (Except.ok ⟨"a", "r", 1⟩) (some "net") ⟨"a", "r", 1⟩ none).result =
      Except.error ("send request to refresh token: " ++ "net") :=
  ⟨rfl,
   (refresh_single_shot (Except.error "disk") none ⟨"a", "r", 1⟩ none).2.2.1 "disk" rfl,
   rfl, rfl,
   (refresh_single_shot (Except.ok ⟨"a", "r", 1⟩) (some "net") ⟨"a", "r", 1⟩
      none).2.2.2.2 ⟨"a", "r", 1⟩ "net" rfl rfl⟩

/-- C4: when the upstream open-door call fails for an `UNLOCK` command on
a parseable topic, the handler publishes no state message, logs the
failure, and calls the open-door action exactly once (no retry). -/
theorem unlock_failure_no_state_change (e topic : String) (a p : Int)
    (h : sscanfDoorCommandTopic topic = some (a, p)) :
    commandHandler (some e) topic "UNLOCK" =
      [HAEvent.log "info" "Received command",
       HAEvent.log "info" "Opening door",
       HAEvent.openDoor p a,
       HAEvent.log "error" "Failed to open door"] ∧
    statePublishes (commandHandler (some e) topic "UNLOCK") = 0 ∧
    upstreamCalls (commandHandler (some e) topic "UNLOCK") = 1 := by
  unfold commandHandler
  rw [h]
  exact ⟨rfl, rfl, rfl⟩

/-- Witness for C4: a concrete failing open on
`domru/domru-door_7_3-open/command` publishes nothing. -/
theorem unlock_failure_no_state_change_witness :
    sscanfDoorCommandTopic "domru/domru-door_7_3-open/command" = some (7, 3) ∧
    statePublishes
      (commandHandler (some "boom") "domru/domru-door_7_3-open/command" "UNLOCK") = 0 :=
  ⟨by decide,
   (unlock_failure_no_state_change "boom" "domru/domru-door_7_3-open/command" 7 3
      (by decide)).2.1⟩

/-- C5 counterexample: the topic `"domru/domru-door_ 7_3-open/command"`
(a space before the first id) does not match the exact pattern
`domru/domru-door_<int>_<int>-open/command`, yet it is deliverable
through the `domru/+/command` subscription and Go's `Sscanf` accepts it
(`%d` discards leading white space), so the handler makes an upstream
open-door call rather than zero. -/
theorem malformed_topic_counterexample :
    specExactCommandTopic "domru/domru-door_ 7_3-open/command" = false ∧
    matchesCommandFilter "domru/domru-door_ 7_3-open/command" = true ∧
    sscanfDoorCommandTopic "domru/domru-door_ 7_3-open/command" = some (7, 3) ∧
    upstreamCalls
      (commandHandler none "domru/domru-door_ 7_3-open/command" "UNLOCK") = 1 := by
  decide

/-- C5 amended: for every inbound command message whose topic the
handler's `Sscanf` parse rejects (the exact pattern up to Go's integer
scanning conventions, which also allow white space and an optional sign
before each id), the handler makes zero upstream calls and zero state
publishes, logs the parse failure, and returns. -/
theorem unparseable_topic_no_effects (err : Option String)
    (topic payload : String) (h : sscanfDoorCommandTopic topic = none) :
    commandHandler err topic payload =
      [HAEvent.log "info" "Received command",
       HAEvent.log "error" "Failed to parse access control ID from topic"] ∧
    upstreamCalls (commandHandler err topic payload) = 0 ∧
    statePublishes (commandHandler err topic payload) = 0 := by
  unfold commandHandler
  rw [h]
  exact ⟨rfl, rfl, rfl⟩

/-- Witness for amended C5: a topic without ids produces no call and no
publish. -/
theorem unparseable_topic_no_effects_witness :
    sscanfDoorCommandTopic "domru/otherdevice/command" = none ∧
    upstreamCalls (commandHandler none "domru/otherdevice/command" "UNLOCK") = 0 :=
  ⟨by decide,
   (unparseable_topic_no_effects none "domru/otherdevice/command" "UNLOCK"
      (by decide)).2.1⟩

/-- C6: the token provider holds no credentials across calls — each of
`GetOperatorID`, `GetToken` and `RefreshToken` is a function of the
store content at call time alone (the embedding's provider carries no
credential state), returning exactly the freshly loaded record's fields,
and `RefreshToken`'s request headers are built from the freshly loaded
record. -/
theorem provider_rereads_store (c : Credentials) (e : String)
    (resp : AuthenticationResponse) :
    GetOperatorID (Except.ok c) = Except.ok c.operatorID ∧
    GetToken (Except.ok c) = Except.ok c.accessToken ∧
    GetOperatorID (Except.error e) = Except.error ("load credentials: " ++ e) ∧
    GetToken (Except.error e) = Except.error ("load credentials: " ++ e) ∧
    (RefreshToken (Except.ok c) none resp none).trace.head? =
      some (TMEvent.request "GET" API_REFRESH_SESSION_URL
        [("Bearer", c.refreshToken), ("Operator", toString c.operatorID)]) :=
  ⟨rfl, rfl, rfl, rfl, rfl⟩

/-- C7 counterexample: `Stop` on a connected client emits only the
disconnect with its 250 ms grace period — it publishes nothing at all,
in particular no explicit `offline` message on the availability
topic. -/
theorem stop_publishes_nothing :
    Stop true = [HAEvent.disconnect 250] ∧
    (Stop true).filter isPublishEvent = [] ∧
    (Stop false).filter isPublishEvent = [] := by
  decide

/-- C7 amended: on shutdown `Stop` disconnects from the broker with a
bounded (250 ms) grace period when connected and does nothing otherwise;
the `offline` availability marker is not published by `Stop` — it is
only registered at connect time as the broker-side last-will on
`domru_proxy/status` (published by the broker on ungraceful
disconnect). -/
theorem stop_disconnects_with_grace :
    Stop true = [HAEvent.disconnect 250] ∧ Stop false = [] ∧
    startWill = ("domru_proxy/status", "offline", 1, true) := by
  decide

/-- C8: the discovery publish is deterministic — for a fixed `haHost`,
two access-control entries with the same id and display name (two runs
over an unchanged device list) yield byte-identical discovery topic and
payload, the same entity id, and the same initial-state publish. -/
theorem discovery_payload_deterministic (ac1 ac2 : AccessControl)
    (placeID : Int) (haHost : String)
    (hID : ac1.ID = ac2.ID) (hName : ac1.Name = ac2.Name) :
    publishDoorLockMsg ac1 placeID haHost = publishDoorLockMsg ac2 placeID haHost := by
  have h : ac1 = ac2 := by cases ac1; cases ac2; simp_all
  rw [h]

/-- Witness for C8: a concrete entry republished is byte-identical. -/
theorem discovery_payload_deterministic_witness :
    (⟨7, "Front door"⟩ : AccessControl).ID = 7 ∧
    publishDoorLockMsg ⟨7, "Front door"⟩ 3 "http://ha.local/" =
      publishDoorLockMsg ⟨7, "Front door"⟩ 3 "http://ha.local/" :=
  ⟨rfl,
   discovery_payload_deterministic ⟨7, "Front door"⟩ ⟨7, "Front door"⟩ 3
     "http://ha.local/" rfl rfl⟩

/-- C9: a `LOCK` command on a parseable topic publishes `LOCKED` on the
corresponding state topic immediately and makes no upstream call. -/
theorem lock_command_immediate_state (err : Option String) (topic : String)
    (a p : Int) (h : sscanfDoorCommandTopic topic = some (a, p)) :
    commandHandler err topic "LOCK" =
      [HAEvent.log "info" "Received command",
       HAEvent.publish
         ("domru/domru-door_" ++ toString a ++ "_" ++ toString p ++ "-open/state")
         1 true "LOCKED" 0] ∧
    upstreamCalls (commandHandler err topic "LOCK") = 0 := by
  unfold commandHandler
  rw [h]
  exact ⟨rfl, rfl⟩

/-- Witness for C9: a concrete `LOCK` publishes `LOCKED` at once and
calls nothing upstream. -/
theorem lock_command_immediate_state_witness :
    sscanfDoorCommandTopic "domru/domru-door_7_3-open/command" = some (7, 3) ∧
    upstreamCalls (commandHandler none "domru/domru-door_7_3-open/command" "LOCK") = 0 :=
  ⟨by decide,
   (lock_command_immediate_state none "domru/domru-door_7_3-open/command" 7 3
      (by decide)).2⟩

/-- C10: a supervisor response with `Result = "ok"` and one interface
whose `Ipv4.Address` list is empty passes the guard of
`GetHomeAssistantNetworkAddress` but panics on the unguarded
`Address[0]` indexing instead of returning an error. -/
theorem network_address_index_panic :
    extractNetworkAddress ⟨"ok", [⟨⟨[]⟩⟩]⟩ =
      GoOutcome.panic "runtime error: index out of range [0] with length 0" ∧
    (⟨"ok", [⟨⟨[]⟩⟩]⟩ : HAConfig).result = "ok" ∧
    (⟨"ok", [⟨⟨[]⟩⟩]⟩ : HAConfig).interfaces.length > 0 :=
  ⟨rfl, rfl, by decide⟩

end DomruBridge
